import Mathlib

/-!
Shallow embedding of the `wp_news_ops` audit pipeline
(`src/wp_news_ops/audit.py` and `src/wp_news_ops/reporting.py`).

Machine integers do not occur; Python ints are modelled by `Nat`/`Int`,
Python float ratio comparisons by exact rationals (`Rat`), fallible code
by `Except`/`Option`.  Each definition is translated from the source file
named in its doc comment; definitions written from the specification text
(for refinement comparisons) say so explicitly.
-/

set_option maxHeartbeats 1000000

namespace WpNewsOps

def charsPrefix : List Char → List Char → Bool
  | [], _ => true
  | _ :: _, [] => false
  | a :: as, b :: bs => a = b && charsPrefix as bs

def charsInfix (needle : List Char) : List Char → Bool
  | [] => charsPrefix needle []
  | c :: rest => charsPrefix needle (c :: rest) || charsInfix needle rest

/-- Python `needle in hay` on strings (substring test). -/
def strContains (hay needle : String) : Bool :=
  charsInfix needle.toList hay.toList

def isPyWhitespace (c : Char) : Bool :=
  c = ' ' || c = '\t' || c = '\n' || c = '\r' || c = '\x0b' || c = '\x0c'

/-- Python `str.strip()`. -/
def pyStrip (s : String) : String :=
  String.mk (((s.toList.dropWhile isPyWhitespace).reverse.dropWhile isPyWhitespace).reverse)

def charLower (c : Char) : Char :=
  if 'A' ≤ c && c ≤ 'Z' then Char.ofNat (c.toNat + 32) else c

/-- Python `str.lower()` (over the ASCII range, which is all the audit
compares). -/
def strLower (s : String) : String := String.mk (s.toList.map charLower)

/-- Python `s.startswith(pre)`. -/
def strStartsWith (s pre : String) : Bool := charsPrefix pre.toList s.toList

/-- Python `s.endswith(suf)`. -/
def strEndsWith (s suf : String) : Bool := charsPrefix suf.toList.reverse s.toList.reverse

/-- Split a character list at every occurrence of `sep`
(Python `s.split(sep)`). -/
def splitOnChar (sep : Char) : List Char → List (List Char)
  | [] => [[]]
  | c :: rest =>
    match splitOnChar sep rest with
    | [] => [[c]]
    | h :: t => if c = sep then [] :: h :: t else (c :: h) :: t

/-- The characters after the first occurrence of `sep`, if any
(Python `s.split(sep, 1)[1]`). -/
def afterFirstChar (sep : Char) : List Char → Option (List Char)
  | [] => none
  | c :: rest => if c = sep then some rest else afterFirstChar sep rest

/-- `audit.py` `_local_name`: strip a `}`-terminated namespace URI or a
`:`-terminated prefix, then lowercase. -/
def local_name (tag : String) : String :=
  match afterFirstChar '}' tag.toList with
  | some rest => strLower (String.mk rest)
  | none =>
    match afterFirstChar ':' tag.toList with
    | some rest => strLower (String.mk rest)
    | none => strLower tag

/-- A direct child element of one RSS `item` / Atom `entry` node, carrying
the pieces `audit.py` `_parse_feed_xml` reads: original tag, text content
(`None` when absent), and the `type`/`url`/`href` attributes. -/
structure FeedChild where
  tag : String
  text : Option String
  attr_type : Option String
  attr_url : Option String
  attr_href : Option String
deriving DecidableEq, Repr

/-- Local names that make a child an embedded-content candidate
(`audit.py` line 217). -/
def contentNames : List String := ["encoded", "content", "summary", "description"]

def isContentChild (c : FeedChild) : Bool :=
  contentNames.contains (local_name c.tag)

/-- What `_parse_feed_xml` stores for one matching child:
`content_html = (child.text or "").strip()`, overridden by the raw text
when the text is non-empty and contains `<`. -/
def captureContent (text : Option String) : String :=
  let base := pyStrip (text.getD "")
  match text with
  | some t => if t ≠ "" && strContains t "<" then t else base
  | none => base

/-- `audit.py` `_parse_feed_xml` lines 213-219: the loop over the direct
children of an item/entry node that settles `content_html`.  Every
matching child overwrites the previous value (there is no break). -/
def contentHtmlOf (children : List FeedChild) : String :=
  children.foldl
    (fun acc c => if isContentChild c then captureContent c.text else acc) ""

/-- A normalized feed entry (`audit.py` `_parse_feed_xml` output dict). -/
structure FeedItem where
  title : String
  link : String
  pub_date : String
  has_image : Bool
  content_length : Nat
  looks_excerpt : Bool
deriving DecidableEq, Repr

def riskReasonImages : String := "Feed items often do not include images."
def riskReasonExcerpt : String := "Feed content appears excerpt-only."
def riskReasonNoItems : String := "No valid feed items were found."

/-- `items_with_image / item_count`. -/
def imageRatio (items : List FeedItem) : Rat :=
  ((items.filter (fun i => i.has_image)).length : Rat) / (items.length : Rat)

/-- `excerpt_like / item_count`. -/
def excerptRatio (items : List FeedItem) : Rat :=
  ((items.filter (fun i => i.looks_excerpt)).length : Rat) / (items.length : Rat)

/-- `sum(item["content_length"] for item in selected_items)`. -/
def sumContentLength (items : List FeedItem) : Nat :=
  (items.map (fun i => i.content_length)).sum

/-- `sum(content_length) / item_count`. -/
def avgContentLength (items : List FeedItem) : Rat :=
  (sumContentLength items : Rat) / (items.length : Rat)

/-- The image-sparsity risk condition (`image_ratio < 0.7`). -/
def riskCondA (items : List FeedItem) : Bool := decide (imageRatio items < 7 / 10)

/-- The excerpt-only risk condition (`excerpt_ratio > 0.5 or avg < 500`). -/
def riskCondB (items : List FeedItem) : Bool :=
  decide (excerptRatio items > 1 / 2) || decide (avgContentLength items < 500)

/-- `audit.py` `_audit_feed` lines 302-315: the NewsBreak risk verdict over
the selected feed entries.  Ratios are exact rationals. -/
def feedRisk (items : List FeedItem) : Bool × List String :=
  if items.length = 0 then
    (true, [riskReasonNoItems])
  else
    (riskCondA items || riskCondB items,
      (if riskCondA items then [riskReasonImages] else []) ++
        (if riskCondB items then [riskReasonExcerpt] else []))

/-! ## URL parsing (the scheme/netloc/path subset of `urllib.parse.urlparse`) -/

def isSchemeTailChar (c : Char) : Bool := c.isAlphanum || c = '+' || c = '-' || c = '.'

def validScheme : List Char → Bool
  | [] => false
  | c :: rest => c.isAlpha && rest.all isSchemeTailChar

/-- Split at the first occurrence of `sep`: `(before, after)`. -/
def splitAtFirst (sep : Char) : List Char → Option (List Char × List Char)
  | [] => none
  | c :: rest =>
    if c = sep then some ([], rest)
    else (splitAtFirst sep rest).map (fun p => (c :: p.1, p.2))

/-- Python `urlparse` scheme handling: the text before the first `:` is the
(lowercased) scheme when it is a valid scheme token; else no scheme. -/
def pySplitScheme (url : List Char) : String × List Char :=
  match splitAtFirst ':' url with
  | some (before, after) =>
    if validScheme before then (strLower (String.mk before), after) else ("", url)
  | none => ("", url)

/-- Prefix of the list up to (excluding) the first delimiter, plus the rest. -/
def takeUntilDelims (delims : List Char) : List Char → List Char × List Char
  | [] => ([], [])
  | c :: rest =>
    if delims.contains c then ([], c :: rest)
    else
      let p := takeUntilDelims delims rest
      (c :: p.1, p.2)

structure UrlParts where
  scheme : String
  netloc : String
  path : String
deriving DecidableEq, Repr

/-- The scheme/netloc/path fields of Python `urllib.parse.urlparse`:
netloc follows a leading `//` up to the first of `/?#`; the path stops at
the first of `?#`. -/
def pyUrlparse (url : String) : UrlParts :=
  let sp := pySplitScheme url.toList
  match sp.2 with
  | '/' :: '/' :: r =>
    let np := takeUntilDelims ['/', '?', '#'] r
    let pp := takeUntilDelims ['?', '#'] np.2
    ⟨sp.1, String.mk np.1, String.mk pp.1⟩
  | rest =>
    let pp := takeUntilDelims ['?', '#'] rest
    ⟨sp.1, "", String.mk pp.1⟩

/-- Python `s.rstrip("/")`: drop every trailing slash. -/
def rstripSlashes (s : String) : String :=
  String.mk ((s.toList.reverse.dropWhile (fun c => c = '/')).reverse)

/-- `audit.py` `_normalize_url_for_compare`. -/
def normalize_url_for_compare (url : String) : String × String :=
  let parsed := pyUrlparse url
  let host := strLower parsed.netloc
  let path0 := rstripSlashes parsed.path
  (host, if path0 = "" then "/" else path0)

/-- `audit.py` `_urls_equivalent`. -/
def urls_equivalent (url_a url_b : String) : Bool :=
  let a := normalize_url_for_compare url_a
  let b := normalize_url_for_compare url_b
  if a.1 ≠ "" && b.1 ≠ "" && a.1 ≠ b.1 then false
  else a.2 = b.2

/-- Strip a single trailing slash; an empty path normalizes to `/`
(wording of the specification). -/
def stripOneTrailingSlash (p : String) : String :=
  let q := if strEndsWith p "/" then String.mk p.toList.dropLast else p
  if q = "" then "/" else q

/-- The URL-equivalence relation exactly as the specification words it,
written for comparison with `urls_equivalent`: hosts match
case-insensitively and paths match after stripping a single trailing
slash, an empty path normalizing to `/`. -/
def spec_urls_equivalent (url_a url_b : String) : Bool :=
  let pa := pyUrlparse url_a
  let pb := pyUrlparse url_b
  strLower pa.netloc = strLower pb.netloc &&
    stripOneTrailingSlash pa.path = stripOneTrailingSlash pb.path

/-- The lowercased host a URL parses to (`netloc.lower()`). -/
def amendedHost (u : String) : String := strLower (pyUrlparse u).netloc

/-- The path a URL parses to, with every trailing slash stripped and an
empty path normalized to `/`. -/
def amendedPathNorm (u : String) : String :=
  let q := rstripSlashes (pyUrlparse u).path
  if q = "" then "/" else q

/-- The amended specification wording of URL equivalence: when both hosts
are non-empty they must match case-insensitively, and the paths must match
after stripping every trailing slash (an empty path normalizing to `/`). -/
def amended_spec_urls_equivalent (url_a url_b : String) : Prop :=
  ((amendedHost url_a ≠ "" ∧ amendedHost url_b ≠ "") →
      amendedHost url_a = amendedHost url_b) ∧
    amendedPathNorm url_a = amendedPathNorm url_b

/-! ## Site normalization -/

/-- `audit.py` `normalize_site`, after the default scheme has been applied:
parse, require a host, rebuild `scheme://host/`. -/
def buildSiteBase (url : String) : Except String String :=
  let parsed := pyUrlparse url
  if parsed.netloc = "" then .error ("Invalid site URL: " ++ url)
  else .ok (parsed.scheme ++ "://" ++ parsed.netloc ++ "/")

/-- The default-scheme step of `normalize_site`: prepend `https://` when
the input starts with neither `http://` nor `https://`. -/
def withDefaultScheme (s : String) : String :=
  if strStartsWith s "http://" || strStartsWith s "https://" then s
  else "https://" ++ s

/-- `audit.py` `normalize_site`. -/
def normalize_site (site : String) : Except String String :=
  let s := pyStrip site
  if s = "" then .error "Site URL cannot be empty."
  else buildSiteBase (withDefaultScheme s)

/-! ## Robots parsing -/

/-- `audit.py` `_parse_robots` per-line handling: strip, skip blanks and
comment lines, cut an inline comment, split on the first `:`, lowercase
the directive name, trim the value. -/
def robotsDirective (raw_line : String) : Option (String × String) :=
  let line := pyStrip raw_line
  if line = "" || strStartsWith line "#" then none
  else
    let line :=
      if strContains line "#" then pyStrip (String.mk (takeUntilDelims ['#'] line.toList).1)
      else line
    match splitAtFirst ':' line.toList with
    | none => none
    | some kv => some (strLower (pyStrip (String.mk kv.1)), pyStrip (String.mk kv.2))

def importantPrefixes : List String :=
  ["/feed", "/sitemap", "/wp-sitemap", "/news-sitemap", "/sitemaps"]

/-- Classification of one stripped, non-empty disallow value
(`_parse_robots` lines 83-93). -/
def ruleBlocking (clean : String) : Bool :=
  if clean = "/" then true
  else if strStartsWith clean "/?" then
    strContains clean "/?feed" || strContains clean "/?sitemap"
  else importantPrefixes.any (fun p => clean = p || strStartsWith clean (p ++ "/"))

/-- The `blocking_hints` list accumulated by the loop in `_parse_robots`. -/
def blockingHints (disallow_rules : List String) : List String :=
  disallow_rules.filterMap (fun rule =>
    let clean := pyStrip rule
    if clean = "" then none
    else if ruleBlocking clean then some clean else none)

/-- Lexicographic comparison of character lists by code point, the order
Python string comparison uses. -/
def charsLe : List Char → List Char → Bool
  | [], _ => true
  | _ :: _, [] => false
  | a :: as, b :: bs => if a = b then charsLe as bs else decide (a < b)

/-- Python `a <= b` on strings. -/
def pyStrLe (a b : String) : Bool := charsLe a.toList b.toList

def strLeRel (a b : String) : Prop := pyStrLe a b = true

instance : DecidableRel strLeRel := fun a b =>
  inferInstanceAs (Decidable (pyStrLe a b = true))

/-- Python `sorted(set(xs))` over strings, as a stable structural sort of
the deduplicated list. -/
def sortedDedup (xs : List String) : List String :=
  xs.dedup.insertionSort strLeRel

structure RobotsParsed where
  disallow_rules : List String
  sitemap_lines : List String
  potentially_blocking_rules : List String
deriving DecidableEq, Repr

/-- `audit.py` `_parse_robots`. -/
def parse_robots (text : String) : RobotsParsed :=
  let directives := ((splitOnChar (Char.ofNat 10) text.toList).map String.mk).filterMap robotsDirective
  let disallow := directives.filterMap (fun kv => if kv.1 = "disallow" then some kv.2 else none)
  let sitemaps := directives.filterMap (fun kv => if kv.1 = "sitemap" then some kv.2 else none)
  ⟨disallow, sitemaps, sortedDedup (blockingHints disallow)⟩

/-! ## Feed discovery and selection (`audit.py` `_discover_feed_urls`, `_audit_feed`) -/

/-- A successful HTTP response, as far as feed checking reads it. -/
structure FeedResp where
  status : Nat
  body : String

/-- `requests` `Response.ok`: status code below 400. -/
def respOk (r : FeedResp) : Bool := r.status < 400

structure SelectedFeed where
  url : String
  status : Nat
  items : List FeedItem
deriving DecidableEq, Repr

structure FeedCheck where
  url : String
  status : Option Nat
  error : Option String
  items : List FeedItem
  parse_error : Option String
deriving DecidableEq, Repr

/-- `audit.py` `_discover_feed_urls`: the seed `feed/` candidate together
with the already-resolved alternate-link URLs from the homepage, run
through Python `sorted(set(...))`. -/
def discover_feed_urls (seed : String) (alternates : List String) : List String :=
  sortedDedup (seed :: alternates)

/-- One iteration of the candidate loop in `_audit_feed` (lines 270-289):
fetch, parse when the response is OK, and remember the first candidate
that parses cleanly to a non-empty entry list.  The recorded check status
is `resp.status_code if resp else None`, and a `requests` response is
truthy exactly when it is OK, so a non-OK response records a null
status. -/
def feedStep (parse : String → List FeedItem × Option String)
    (fetch : String → Option FeedResp × Option String)
    (acc : Option SelectedFeed × List FeedCheck) (feed_url : String) :
    Option SelectedFeed × List FeedCheck :=
  let fr := fetch feed_url
  match fr.1 with
  | some resp =>
    if respOk resp then
      let pr := parse resp.body
      let entry : FeedCheck := ⟨feed_url, some resp.status, fr.2, pr.1, pr.2⟩
      (if pr.2.isNone && !pr.1.isEmpty && acc.1.isNone then
        some ⟨feed_url, resp.status, pr.1⟩
       else acc.1,
       acc.2 ++ [entry])
    else
      (acc.1, acc.2 ++ [⟨feed_url, none, fr.2, [], none⟩])
  | none => (acc.1, acc.2 ++ [⟨feed_url, none, fr.2, [], none⟩])

/-- The full candidate loop of `_audit_feed`. -/
def audit_feed_selection (parse : String → List FeedItem × Option String)
    (fetch : String → Option FeedResp × Option String)
    (urls : List String) : Option SelectedFeed × List FeedCheck :=
  urls.foldl (feedStep parse fetch) (none, [])

/-- A candidate qualifies when it fetched with an OK status, parsed without
error, and produced at least one entry. -/
def qualifies (parse : String → List FeedItem × Option String)
    (fetch : String → Option FeedResp × Option String) (u : String) : Bool :=
  match (fetch u).1 with
  | some resp => respOk resp && (parse resp.body).2.isNone && !(parse resp.body).1.isEmpty
  | none => false

/-- The selection record a qualifying candidate would produce. -/
def mkSelected (parse : String → List FeedItem × Option String)
    (fetch : String → Option FeedResp × Option String) (u : String) : SelectedFeed :=
  match (fetch u).1 with
  | some resp => ⟨u, resp.status, (parse resp.body).1⟩
  | none => ⟨u, 0, []⟩

/-- `selected_items = best_feed["items"] if best_feed else []`. -/
def selectedItems : Option SelectedFeed → List FeedItem
  | some b => b.items
  | none => []

/-! ## Article aggregation (`audit.py` `_summarize_articles`) -/

/-- The fields of one article finding that `_summarize_articles` reads. -/
structure PageFinding where
  status : Option Nat
  response_size_bytes : Nat
  canonical_exists : Bool
  canonical_consistent : Bool
  noindex : Bool
  og_title : Bool
  og_type : Bool
  og_url : Bool
  og_image : Bool
  og_image_width : Option Int
  og_image_height : Option Int
  publication_date_visible : Bool
  jsonld_article_count : Nat
  jsonld_missing_fields : List String
  render_blocking_scripts : Nat
  huge_inline_scripts : Nat
deriving DecidableEq, Repr

/-- Python truthiness of `page.get("status")` (an optional int). -/
def statusTruthy : Option Nat → Bool
  | none => false
  | some n => n != 0

/-- Python truthiness of an optional int (`og:image:width` and height). -/
def optIntTruthy : Option Int → Bool
  | none => false
  | some n => n != 0

structure ArticlesSummary where
  sampled : Nat
  fetched : Nat
  missing_canonical : Nat
  canonical_mismatch : Nat
  noindex_pages : Nat
  missing_og_title : Nat
  missing_og_type : Nat
  missing_og_url : Nat
  missing_og_image : Nat
  missing_publication_date_html : Nat
  missing_jsonld_article : Nat
  jm_headline : Nat
  jm_datePublished : Nat
  jm_dateModified : Nat
  jm_author_name : Nat
  jm_publisher_name : Nat
  jm_image : Nat
  avg_response_size_bytes : Nat
  high_blocking_script_pages : Nat
  huge_inline_script_pages : Nat
  missing_og_image_dimensions : Nat
deriving DecidableEq, Repr

/-- The all-zero summary returned when no page was fetched. -/
def emptySummary (sampledCount : Nat) : ArticlesSummary :=
  ⟨sampledCount, 0, 0, 0, 0, 0, 0, 0, 0, 0, 0, 0, 0, 0, 0, 0, 0, 0, 0, 0, 0⟩

/-- `audit.py` `_summarize_articles`. -/
def summarize_articles (pages : List PageFinding) : ArticlesSummary :=
  let fetched := pages.filter (fun p => statusTruthy p.status)
  let total := fetched.length
  if total = 0 then emptySummary pages.length
  else
    { sampled := pages.length
      fetched := total
      missing_canonical := (fetched.filter (fun p => !p.canonical_exists)).length
      canonical_mismatch :=
        (fetched.filter (fun p => p.canonical_exists && !p.canonical_consistent)).length
      noindex_pages := (fetched.filter (fun p => p.noindex)).length
      missing_og_title := (fetched.filter (fun p => !p.og_title)).length
      missing_og_type := (fetched.filter (fun p => !p.og_type)).length
      missing_og_url := (fetched.filter (fun p => !p.og_url)).length
      missing_og_image := (fetched.filter (fun p => !p.og_image)).length
      missing_publication_date_html :=
        (fetched.filter (fun p => !p.publication_date_visible)).length
      missing_jsonld_article :=
        (fetched.filter (fun p => p.jsonld_article_count = 0)).length
      jm_headline := (fetched.map (fun p => p.jsonld_missing_fields.count "headline")).sum
      jm_datePublished :=
        (fetched.map (fun p => p.jsonld_missing_fields.count "datePublished")).sum
      jm_dateModified :=
        (fetched.map (fun p => p.jsonld_missing_fields.count "dateModified")).sum
      jm_author_name := (fetched.map (fun p => p.jsonld_missing_fields.count "author.name")).sum
      jm_publisher_name :=
        (fetched.map (fun p => p.jsonld_missing_fields.count "publisher.name")).sum
      jm_image := (fetched.map (fun p => p.jsonld_missing_fields.count "image")).sum
      avg_response_size_bytes := (fetched.map (fun p => p.response_size_bytes)).sum / total
      high_blocking_script_pages :=
        (fetched.filter (fun p => p.render_blocking_scripts ≥ 8)).length
      huge_inline_script_pages :=
        (fetched.filter (fun p => p.huge_inline_scripts > 0)).length
      missing_og_image_dimensions :=
        (fetched.filter
          (fun p => !optIntTruthy p.og_image_width || !optIntTruthy p.og_image_height)).length }

/-! ## Issue engine (`reporting.py` `derive_issues`) -/

/-- The robots section of the audit payload, as `derive_issues` reads it. -/
structure RobotsData where
  status : Option Nat
  error : Option String
  disallow_rules : List String
  sitemap_lines : List String
  potentially_blocking_rules : List String
deriving DecidableEq, Repr

/-- One sitemap probe (`_audit_discovery` entry dict). -/
structure SitemapProbe where
  path : String
  status : Option Nat
  error : Option String
  reachable : Bool
  lastmod_hints : List String
deriving DecidableEq, Repr

/-- The feed section fields that the issue engine reads. -/
structure FeedSection where
  discovered_feed_urls : List String
  selected_feed_url : Option String
  item_count : Nat
  items_with_image : Nat
  excerpt_like_items : Nat
  newsbreak_risk : Bool
  newsbreak_risk_reasons : List String
deriving DecidableEq, Repr

structure Audit where
  robots : RobotsData
  sitemaps : List SitemapProbe
  feed : FeedSection
  summary : ArticlesSummary
deriving DecidableEq, Repr

structure Issue where
  priority : String
  title : String
  evidence : String
  fix : String
deriving DecidableEq, Repr

/-- `reporting.py` `_ratio`. -/
def pyRatio (count total : Nat) : Rat :=
  if total = 0 then 0 else (count : Rat) / (total : Rat)

/-- One conditional `issues.append(...)` of `derive_issues`. -/
def optIssue (c : Prop) [Decidable c] (i : Issue) : List Issue :=
  if c then [i] else []

/-- The four top-priority rules of `derive_issues`, in evaluation order. -/
def p0Issues (a : Audit) : List Issue :=
  optIssue (a.robots.potentially_blocking_rules ≠ [])
    ⟨"P0", "robots.txt may block news discovery paths",
      String.intercalate ", " a.robots.potentially_blocking_rules,
      "In WordPress, check SEO plugin robots settings and remove Disallow rules blocking /feed/ or sitemap endpoints."⟩ ++
  optIssue ((a.sitemaps.any (fun s => s.reachable)) = false)
    ⟨"P0", "No sitemap endpoint was reachable",
      "None of /sitemap.xml, /sitemap_index.xml, /wp-sitemap.xml, /news-sitemap.xml returned 2xx/3xx.",
      "Enable XML sitemaps in your SEO plugin or core WordPress and verify robots.txt exposes a Sitemap line."⟩ ++
  optIssue (a.feed.item_count = 0)
    ⟨"P0", "No valid RSS feed items found",
      "Feed discovery returned no usable entries.",
      "Ensure /feed/ returns valid RSS and is not cached/rewritten to HTML."⟩ ++
  optIssue (0 < a.summary.fetched ∧ 0 < a.summary.noindex_pages)
    ⟨"P0", "Some sampled articles are marked noindex",
      toString a.summary.noindex_pages ++ " of " ++ toString a.summary.fetched ++
        " sampled pages contain meta robots noindex.",
      "In SEO plugin settings, set posts to Index and remove per-post noindex overrides."⟩

/-- The six second-priority rules of `derive_issues`, in evaluation order. -/
def p1Issues (a : Audit) : List Issue :=
  let fetched := a.summary.fetched
  optIssue (0 < fetched ∧ pyRatio a.summary.missing_canonical fetched > 1 / 5)
    ⟨"P1", "Canonical tags are missing on many sampled articles",
      toString a.summary.missing_canonical ++ " of " ++ toString fetched ++
        " pages were missing canonical.",
      "Enable canonical output in your SEO plugin and ensure single.php includes wp_head()."⟩ ++
  optIssue (0 < fetched ∧ pyRatio a.summary.canonical_mismatch fetched > 1 / 5)
    ⟨"P1", "Canonical URL mismatches article URL on sampled pages",
      toString a.summary.canonical_mismatch ++ " of " ++ toString fetched ++
        " pages have inconsistent canonical URLs.",
      "Review permalink settings and avoid plugins that rewrite canonical URLs to archives or tracking URLs."⟩ ++
  optIssue (a.feed.newsbreak_risk = true)
    ⟨"P1", "Feed has elevated NewsBreak ingestion risk",
      (let j := String.intercalate "; " a.feed.newsbreak_risk_reasons
       if j = "" then "Feed appears excerpt-only or image-light." else j),
      "Switch RSS to full text and include featured images in feed items."⟩ ++
  optIssue (0 < fetched ∧ pyRatio a.summary.missing_og_image fetched > 1 / 5)
    ⟨"P1", "Open Graph images are missing on many sampled articles",
      toString a.summary.missing_og_image ++ " of " ++ toString fetched ++
        " pages are missing og:image.",
      "Set a featured image on all posts and enable Open Graph in SEO plugin social settings."⟩ ++
  optIssue (0 < fetched ∧ pyRatio a.summary.missing_jsonld_article fetched > 1 / 5)
    ⟨"P1", "JSON-LD Article/NewsArticle schema is missing on sampled pages",
      toString a.summary.missing_jsonld_article ++ " of " ++ toString fetched ++
        " pages lacked Article schema.",
      "Enable schema output for Posts in your SEO plugin and map it to Article or NewsArticle."⟩ ++
  optIssue (0 < fetched ∧ pyRatio a.summary.missing_publication_date_html fetched > 1 / 5)
    ⟨"P1", "Publication date is not clearly visible in article HTML",
      toString a.summary.missing_publication_date_html ++ " of " ++ toString fetched ++
        " pages did not expose an obvious date signal.",
      "Update single post template to render <time datetime> with published and updated timestamps."⟩

/-- The three third-priority rules of `derive_issues`, in evaluation order. -/
def p2Issues (a : Audit) : List Issue :=
  let fetched := a.summary.fetched
  optIssue (0 < fetched ∧ a.summary.avg_response_size_bytes > 1500000)
    ⟨"P2", "Average sampled article response size is heavy",
      "Average response size is " ++ toString a.summary.avg_response_size_bytes ++ " bytes.",
      "Compress images, reduce third-party scripts, and defer non-critical JS."⟩ ++
  optIssue (0 < fetched ∧ 0 < a.summary.high_blocking_script_pages)
    ⟨"P2", "Potential render-blocking scripts detected",
      toString a.summary.high_blocking_script_pages ++
        " sampled pages have many non-deferred scripts in <head>.",
      "Move non-critical scripts to footer or add defer/async where safe."⟩ ++
  optIssue (0 < fetched ∧ pyRatio a.summary.missing_og_image_dimensions fetched > 1 / 2)
    ⟨"P2", "og:image dimensions are often missing",
      toString a.summary.missing_og_image_dimensions ++ " of " ++ toString fetched ++
        " pages are missing og:image:width/height.",
      "Configure SEO plugin to emit og:image width/height metadata for featured images."⟩

/-- The issue list before the final sort, in rule-evaluation order. -/
def rawIssues (a : Audit) : List Issue :=
  p0Issues a ++ p1Issues a ++ p2Issues a

def issueLe (x y : Issue) : Prop := strLeRel x.priority y.priority

instance : DecidableRel issueLe := fun x y =>
  inferInstanceAs (Decidable (strLeRel x.priority y.priority))

/-- `reporting.py` `derive_issues`: evaluate all rules, then Python
`sorted(..., key=priority)` (a stable sort, modelled by the stable
`insertionSort`). -/
def derive_issues (a : Audit) : List Issue :=
  (rawIssues a).insertionSort issueLe

/-! ## Concrete inputs used by witnesses and counterexamples -/

/-- A feed entry with the three raw strings fixed. -/
def exItem (img exc : Bool) (len : Nat) : FeedItem := ⟨"t", "l", "d", img, len, exc⟩

/-- Ten entries: five with images, six excerpt-like, each of content
length 300. -/
def tenItems : List FeedItem :=
  List.replicate 5 (exItem true true 300) ++
    [exItem false true 300] ++ List.replicate 4 (exItem false false 300)

/-- What the specification says the parser captures: the first matching
child wins. -/
def firstContentOf (children : List FeedChild) : String :=
  ((children.find? isContentChild).map (fun c => captureContent c.text)).getD ""

/-- What the code actually keeps: the last matching child wins. -/
def lastContentOf (children : List FeedChild) : String :=
  ((children.reverse.find? isContentChild).map (fun c => captureContent c.text)).getD ""

/-- An item node with two content candidates: a `description` then a
`summary`. -/
def twoContentChildren : List FeedChild :=
  [⟨"description", some "AAAA", none, none, none⟩,
   ⟨"summary", some "BB", none, none, none⟩]

/-- A robots.txt with one blocking prefix rule, one harmless rule, a
whole-site rule and a feed query rule. -/
def robotsExample : String :=
  "User-agent: *\nDisallow: /wp-sitemap/foo\nDisallow: /private\nDisallow: /\nDisallow: /?feed=rss2\nSitemap: https://ex.com/sitemap.xml"

/-- Feed-selection demo: parser outcomes keyed by response body. -/
def demoParse (body : String) : List FeedItem × Option String :=
  if body = "rss-empty" then ([], none)
  else if body = "rss-good" then ([exItem true false 900], none)
  else ([], some "Unsupported feed root element: html")

/-- Feed-selection demo: fetch outcomes keyed by URL. -/
def demoFetch (u : String) : Option FeedResp × Option String :=
  if u = "https://ex.com/a" then (some ⟨200, "rss-empty"⟩, none)
  else if u = "https://ex.com/feed/" then (some ⟨200, "rss-good"⟩, none)
  else (none, some "timeout")

def demoUrls : List String := ["https://ex.com/a", "https://ex.com/feed/"]

/-- The audit snapshot of the end-to-end scenario: robots.txt unreachable
(fetch error, so no robots data), no sitemap candidate reachable, zero
feed entries (hence the risk verdict of `feedRisk []`), zero sampled
articles. -/
def c1Audit : Audit :=
  { robots := ⟨none, some "connection error", [], [], []⟩
    sitemaps := [⟨"/sitemap.xml", none, some "connection error", false, []⟩,
                 ⟨"/sitemap_index.xml", some 404, none, false, []⟩,
                 ⟨"/wp-sitemap.xml", some 404, none, false, []⟩,
                 ⟨"/news-sitemap.xml", some 404, none, false, []⟩]
    feed := { discovered_feed_urls := ["https://ex.com/feed/"]
              selected_feed_url := none
              item_count := 0
              items_with_image := 0
              excerpt_like_items := 0
              newsbreak_risk := (feedRisk []).1
              newsbreak_risk_reasons := (feedRisk []).2 }
    summary := summarize_articles [] }

/-! ## Helper lemmas -/

theorem length_filter_disjoint_le {α : Type} (p q : α → Bool)
    (hpq : ∀ x, p x = true → q x = false) :
    ∀ l : List α, (l.filter p).length + (l.filter q).length ≤ l.length := by
  intro l
  induction l with
  | nil => simp
  | cons a t ih =>
    by_cases hp : p a = true
    · have hq := hpq a hp
      simp [List.filter_cons, hp, hq]
      omega
    · rw [Bool.not_eq_true] at hp
      by_cases hq : q a = true
      · simp [List.filter_cons, hp, hq]
        omega
      · rw [Bool.not_eq_true] at hq
        simp [List.filter_cons, hp, hq]
        omega

/-! ## Claim theorems -/

/-- A fold that overwrites its accumulator on every match returns the
image of the last matching element. -/
theorem foldl_overwrite_eq_last {α β : Type} (m : α → Bool) (f : α → β) :
    ∀ (l : List α) (init : β),
      l.foldl (fun acc c => if m c then f c else acc) init =
        (((l.reverse.find? m).map f).getD init) := by
  intro l
  induction l with
  | nil => intro init; simp
  | cons a t ih =>
    intro init
    rw [List.foldl_cons, ih, List.reverse_cons, List.find?_append]
    cases h : t.reverse.find? m with
    | some c => simp
    | none =>
      simp only [Option.none_or]
      by_cases hm : m a <;> simp [List.find?_cons, hm]

theorem urls_equivalent_iff (a b : String) :
    urls_equivalent a b = true ↔ amended_spec_urls_equivalent a b := by
  unfold urls_equivalent amended_spec_urls_equivalent amendedHost amendedPathNorm
    normalize_url_for_compare
  by_cases h1 : strLower (pyUrlparse a).netloc = "" <;>
    by_cases h2 : strLower (pyUrlparse b).netloc = "" <;>
      by_cases h3 : strLower (pyUrlparse a).netloc = strLower (pyUrlparse b).netloc <;>
        simp [h1, h2, h3]

/-- C10: in every feed audit result, the `newsbreak_risk` flag is true
exactly when the reason list is non-empty. -/
theorem c10_risk_flag_iff_reasons (items : List FeedItem) :
    ((feedRisk items).1 = true) ↔ (feedRisk items).2 ≠ [] := by
  by_cases h : items.length = 0
  · simp [feedRisk, h]
  · cases hA : riskCondA items <;> cases hB : riskCondB items <;>
      simp [feedRisk, h, hA, hB]

/-- C10 witness: evaluated on the concrete ten-entry list. -/
theorem c10_risk_flag_iff_reasons_witness :
    ((feedRisk tenItems).1 = true) ↔ (feedRisk tenItems).2 ≠ [] :=
  c10_risk_flag_iff_reasons tenItems

/-- C9: the missing-canonical and canonical-mismatch counts of the article
aggregate cover disjoint fetched pages, so their sum never exceeds the
fetched count. -/
theorem c9_canonical_counts_disjoint (pages : List PageFinding) :
    (summarize_articles pages).missing_canonical +
        (summarize_articles pages).canonical_mismatch ≤
      (summarize_articles pages).fetched := by
  simp only [summarize_articles]
  by_cases h : (pages.filter (fun p => statusTruthy p.status)).length = 0
  · rw [if_pos h]
    simp [emptySummary]
  · rw [if_neg h]
    exact length_filter_disjoint_le (fun p => !p.canonical_exists)
      (fun p => p.canonical_exists && !p.canonical_consistent)
      (fun x hx => by cases hce : x.canonical_exists <;> simp_all)
      (pages.filter (fun p => statusTruthy p.status))

theorem flag_reason_shape (pA pB : Prop) [Decidable pA] [Decidable pB] (rA rB : String)
    (hne : rA ≠ rB) :
    (((decide pA || decide pB) = true) ↔ (pA ∨ pB)) ∧
    (rA ∈ ((if decide pA = true then [rA] else []) ++
        (if decide pB = true then [rB] else [])) ↔ pA) ∧
    (rB ∈ ((if decide pA = true then [rA] else []) ++
        (if decide pB = true then [rB] else [])) ↔ pB) := by
  by_cases hA : pA <;> by_cases hB : pB <;> simp [hA, hB, hne, Ne.symm hne]

theorem tenItems_len : tenItems.length = 10 := by decide

theorem tenItems_img : (tenItems.filter (fun i => i.has_image)).length = 5 := by decide

theorem tenItems_exc : (tenItems.filter (fun i => i.looks_excerpt)).length = 6 := by decide

theorem tenItems_sum : sumContentLength tenItems = 3000 := by decide

theorem tenItems_avg : avgContentLength tenItems = 300 := by
  rw [avgContentLength, tenItems_sum, tenItems_len]
  norm_num

theorem tenItems_condA : riskCondA tenItems = true := by
  have h : imageRatio tenItems < 7 / 10 := by
    rw [imageRatio, tenItems_img, tenItems_len]
    norm_num
  simp [riskCondA, h]

theorem tenItems_condB : riskCondB tenItems = true := by
  rw [riskCondB]
  have h : decide (excerptRatio tenItems > 1 / 2) = true := by
    rw [decide_eq_true_eq, excerptRatio, tenItems_exc, tenItems_len]
    norm_num
  rw [h]
  rfl

/-- C5: feed risk scoring: with entries present the risk flag is the
disjunction of the image-ratio condition (`imageRatio < 0.7`) and the
excerpt/length condition (`excerptRatio > 0.5` or average content length
below 500), each condition independently contributing its own reason; the
concrete 10-entry example (5 with images, 6 excerpt-like, average length
300) fires both; zero entries yield risk with the no-valid-items reason. -/
theorem c5_risk_scoring :
    (∀ items : List FeedItem, items.length ≠ 0 →
      (((feedRisk items).1 = true ↔
          (imageRatio items < 7 / 10 ∨
            (excerptRatio items > 1 / 2 ∨ avgContentLength items < 500))) ∧
        (riskReasonImages ∈ (feedRisk items).2 ↔ imageRatio items < 7 / 10) ∧
        (riskReasonExcerpt ∈ (feedRisk items).2 ↔
          (excerptRatio items > 1 / 2 ∨ avgContentLength items < 500)))) ∧
    feedRisk [] = (true, [riskReasonNoItems]) ∧
    tenItems.length = 10 ∧
    (tenItems.filter (fun i => i.has_image)).length = 5 ∧
    (tenItems.filter (fun i => i.looks_excerpt)).length = 6 ∧
    avgContentLength tenItems = 300 ∧
    feedRisk tenItems = (true, [riskReasonImages, riskReasonExcerpt]) := by
  refine ⟨?_, rfl, tenItems_len, tenItems_img, tenItems_exc, tenItems_avg, ?_⟩
  · intro items h
    have e : feedRisk items = (riskCondA items || riskCondB items,
        (if riskCondA items then [riskReasonImages] else []) ++
          (if riskCondB items then [riskReasonExcerpt] else [])) := by
      rw [feedRisk, if_neg h]
    have hBo : riskCondB items =
        decide ((1 : Rat) / 2 < excerptRatio items ∨ avgContentLength items < 500) := by
      rw [riskCondB, Bool.decide_or]
    rw [e, hBo]
    exact flag_reason_shape _ _ _ _ (by decide)
  · rw [feedRisk, if_neg (by rw [tenItems_len]; decide), tenItems_condA, tenItems_condB]
    simp

/-- C5 witness: the general statement applied to the concrete ten-entry
feed. -/
theorem c5_risk_scoring_witness :
    tenItems.length ≠ 0 ∧
      ((feedRisk tenItems).1 = true ↔
        (imageRatio tenItems < 7 / 10 ∨
          (excerptRatio tenItems > 1 / 2 ∨ avgContentLength tenItems < 500))) :=
  ⟨by decide, (c5_risk_scoring.1 tenItems (by decide)).1⟩

/-- C2 counterexample: on an item node with a `description` child
(text `AAAA`) followed by a `summary` child (text `BB`), the captured
embedded-content fragment is that of the SECOND, later matching child —
the first-encountered child does not win. -/
theorem c2_counterexample_last_match_wins :
    contentHtmlOf twoContentChildren = "BB" ∧
    firstContentOf twoContentChildren = "AAAA" ∧
    contentHtmlOf twoContentChildren ≠ firstContentOf twoContentChildren :=
  ⟨by decide, by decide, by decide⟩

/-- C2 amended: the embedded-content fragment fed to the content
heuristics is the captured text/markup of the LAST child, in document
order, whose local name is one of encoded/content/summary/description
(each later matching child replaces the earlier capture), and the empty
string when no child matches. -/
theorem c2_amended_content_is_last_match (children : List FeedChild) :
    contentHtmlOf children = lastContentOf children := by
  unfold contentHtmlOf lastContentOf
  exact foldl_overwrite_eq_last isContentChild (fun c => captureContent c.text) children ""

/-- C4 counterexample: the claimed equivalence relation disagrees with the
code: `.../a//` and `.../a` are equivalent for the code but not under
single-trailing-slash stripping, and a host-less URL is treated as
equivalent to one with a host even though their hosts differ. -/
theorem c4_counterexample_single_slash_and_empty_host :
    (urls_equivalent "https://ex.com/a//" "https://ex.com/a" = true ∧
      spec_urls_equivalent "https://ex.com/a//" "https://ex.com/a" = false) ∧
    (urls_equivalent "/a" "https://ex.com/a" = true ∧
      amendedHost "/a" ≠ amendedHost "https://ex.com/a") :=
  ⟨⟨by decide, by decide⟩, by decide, by decide⟩

/-- C4 amended: two URLs are equivalent exactly when their paths match
after stripping ALL trailing slashes (empty path normalizing to `/`) and
their lowercased hosts match WHENEVER both are non-empty; the concrete
examples hold as claimed, and two URLs with differing non-empty hosts are
never equivalent. -/
theorem c4_amended_url_equivalence :
    (∀ a b : String, urls_equivalent a b = true ↔ amended_spec_urls_equivalent a b) ∧
    urls_equivalent "https://EX.com/a/" "https://ex.com/a" = true ∧
    urls_equivalent "https://ex.com/a" "https://ex.com/b" = false ∧
    (∀ a b : String, amendedHost a ≠ "" → amendedHost b ≠ "" →
      amendedHost a ≠ amendedHost b → urls_equivalent a b = false) := by
  refine ⟨urls_equivalent_iff, by decide, by decide, fun a b h1 h2 h3 => ?_⟩
  cases hq : urls_equivalent a b
  · rfl
  · exact absurd (((urls_equivalent_iff a b).mp hq).1 ⟨h1, h2⟩) h3

/-- C4 witness: the amended theorem applied to two URLs with different
non-empty hosts. -/
theorem c4_amended_url_equivalence_witness :
    amendedHost "https://x.com/p" ≠ "" ∧ amendedHost "https://y.com/p" ≠ "" ∧
    amendedHost "https://x.com/p" ≠ amendedHost "https://y.com/p" ∧
    urls_equivalent "https://x.com/p" "https://y.com/p" = false :=
  ⟨by decide, by decide, by decide,
    c4_amended_url_equivalence.2.2.2 "https://x.com/p" "https://y.com/p"
      (by decide) (by decide) (by decide)⟩

/-- C7: site normalization: a non-empty stripped input lacking an
`http://`/`https://` scheme is processed with `https://` prepended; the
concrete example keeps only scheme, host and a trailing slash; every
success value is `scheme://host/`; and normalization fails exactly on
empty/whitespace-only input or input whose host parses empty. -/
theorem c7_normalize_site :
    (∀ s : String, pyStrip s ≠ "" →
      (strStartsWith (pyStrip s) "http://" || strStartsWith (pyStrip s) "https://") = false →
      normalize_site s = buildSiteBase ("https://" ++ pyStrip s)) ∧
    normalize_site "example.com/a/b" = Except.ok "https://example.com/" ∧
    (∀ s r, normalize_site s = Except.ok r →
      r = (pyUrlparse (withDefaultScheme (pyStrip s))).scheme ++ "://" ++
          (pyUrlparse (withDefaultScheme (pyStrip s))).netloc ++ "/") ∧
    (∀ s : String, (∃ e, normalize_site s = Except.error e) ↔
      (pyStrip s = "" ∨ (pyUrlparse (withDefaultScheme (pyStrip s))).netloc = "")) := by
  refine ⟨?_, by rfl, ?_, ?_⟩
  · intro s h1 h2
    simp only [normalize_site]
    rw [if_neg h1]
    unfold withDefaultScheme
    rw [if_neg (by simp [h2])]
  · intro s r h
    simp only [normalize_site] at h
    by_cases h1 : pyStrip s = ""
    · rw [if_pos h1] at h
      exact absurd h (by simp)
    · rw [if_neg h1] at h
      simp only [buildSiteBase] at h
      by_cases h2 : (pyUrlparse (withDefaultScheme (pyStrip s))).netloc = ""
      · rw [if_pos h2] at h
        exact absurd h (by simp)
      · rw [if_neg h2] at h
        exact (Except.ok.inj h).symm
  · intro s
    constructor
    · rintro ⟨e, he⟩
      simp only [normalize_site] at he
      by_cases h1 : pyStrip s = ""
      · exact Or.inl h1
      · rw [if_neg h1] at he
        simp only [buildSiteBase] at he
        by_cases h2 : (pyUrlparse (withDefaultScheme (pyStrip s))).netloc = ""
        · exact Or.inr h2
        · rw [if_neg h2] at he
          exact absurd he (by simp)
    · rintro (h1 | h2)
      · exact ⟨"Site URL cannot be empty.", by simp [normalize_site, h1]⟩
      · by_cases h1 : pyStrip s = ""
        · exact ⟨"Site URL cannot be empty.", by simp [normalize_site, h1]⟩
        · exact ⟨"Invalid site URL: " ++ withDefaultScheme (pyStrip s),
            by simp [normalize_site, h1, buildSiteBase, h2]⟩

/-- C7 witness: the general statements applied to the concrete inputs
`example.com/a/b` and a whitespace-only string. -/
theorem c7_normalize_site_witness :
    pyStrip "example.com/a/b" ≠ "" ∧
    normalize_site "example.com/a/b" =
      buildSiteBase ("https://" ++ pyStrip "example.com/a/b") ∧
    (∃ e, normalize_site "   " = Except.error e) :=
  ⟨by decide,
    c7_normalize_site.1 "example.com/a/b" (by decide) (by decide),
    (c7_normalize_site.2.2.2 "   ").mpr (Or.inl (by decide))⟩

theorem charsLe_total : ∀ l1 l2 : List Char, charsLe l1 l2 = true ∨ charsLe l2 l1 = true
  | [], _ => Or.inl rfl
  | _ :: _, [] => Or.inr rfl
  | a :: as, b :: bs => by
    by_cases hab : a = b
    · subst hab
      simpa [charsLe] using charsLe_total as bs
    · rcases lt_or_gt_of_ne hab with h | h
      · exact Or.inl (by simp [charsLe, hab, h])
      · exact Or.inr (by simp [charsLe, Ne.symm hab, h])

theorem charsLe_trans : ∀ l1 l2 l3 : List Char,
    charsLe l1 l2 = true → charsLe l2 l3 = true → charsLe l1 l3 = true
  | [], _, _, _, _ => rfl
  | _ :: _, [], _, h1, _ => by simp [charsLe] at h1
  | _ :: _, _ :: _, [], _, h2 => by simp [charsLe] at h2
  | a :: as, b :: bs, c :: cs, h1, h2 => by
    by_cases hab : a = b <;> by_cases hbc : b = c
    · subst hab
      subst hbc
      simp only [charsLe, if_pos rfl] at h1 h2 ⊢
      exact charsLe_trans as bs cs h1 h2
    · subst hab
      simp only [charsLe, if_neg hbc, decide_eq_true_eq] at h2
      simp [charsLe, hbc, h2]
    · subst hbc
      simp only [charsLe, if_neg hab, decide_eq_true_eq] at h1
      simp [charsLe, hab, h1]
    · simp only [charsLe, if_neg hab, if_neg hbc, decide_eq_true_eq] at h1 h2
      have hac : a < c := lt_trans h1 h2
      simp [charsLe, ne_of_lt hac, hac]

theorem charsLe_antisymm : ∀ l1 l2 : List Char,
    charsLe l1 l2 = true → charsLe l2 l1 = true → l1 = l2
  | [], [], _, _ => rfl
  | [], _ :: _, _, h2 => by simp [charsLe] at h2
  | _ :: _, [], h1, _ => by simp [charsLe] at h1
  | a :: as, b :: bs, h1, h2 => by
    by_cases hab : a = b
    · subst hab
      simp only [charsLe, if_pos rfl] at h1 h2
      rw [charsLe_antisymm as bs h1 h2]
    · simp only [charsLe, if_neg hab, if_neg (Ne.symm hab), decide_eq_true_eq] at h1 h2
      exact absurd h2 (lt_asymm h1)

theorem strLeRel_total (a b : String) : strLeRel a b ∨ strLeRel b a :=
  charsLe_total a.toList b.toList

theorem strLeRel_trans {a b c : String} (h1 : strLeRel a b) (h2 : strLeRel b c) :
    strLeRel a c :=
  charsLe_trans a.toList b.toList c.toList h1 h2

theorem strLeRel_antisymm {a b : String} (h1 : strLeRel a b) (h2 : strLeRel b a) :
    a = b := by
  have h := charsLe_antisymm a.toList b.toList h1 h2
  exact congrArg String.mk h

theorem sortedDedup_sorted (l : List String) : (sortedDedup l).Pairwise strLeRel :=
  @List.sorted_insertionSort String strLeRel _ ⟨strLeRel_total⟩
    ⟨fun _ _ _ => strLeRel_trans⟩ l.dedup

theorem sortedDedup_perm_congr {l1 l2 : List String} (h : l1.Perm l2) :
    sortedDedup l1 = sortedDedup l2 := by
  refine @List.eq_of_perm_of_sorted String strLeRel
    ⟨fun _ _ h1 h2 => strLeRel_antisymm h1 h2⟩ _ _ ?_
    (sortedDedup_sorted l1) (sortedDedup_sorted l2)
  exact (List.perm_insertionSort _ _).trans (h.dedup.trans (List.perm_insertionSort _ _).symm)

theorem sortedDedup_nodup (l : List String) : (sortedDedup l).Nodup :=
  ((List.perm_insertionSort strLeRel l.dedup).nodup_iff).mpr (List.nodup_dedup l)

/-- C6: robots blocking classification: in the parsed example robots.txt,
`/wp-sitemap/foo`, `/`, and `/?feed=rss2` are classified potentially
blocking while `/private` is not; and the potentially-blocking output is
deduplicated and invariant under permutation of the disallow rules. -/
theorem c6_robots_blocking :
    "/wp-sitemap/foo" ∈ (parse_robots robotsExample).potentially_blocking_rules ∧
    "/private" ∉ (parse_robots robotsExample).potentially_blocking_rules ∧
    "/" ∈ (parse_robots robotsExample).potentially_blocking_rules ∧
    "/?feed=rss2" ∈ (parse_robots robotsExample).potentially_blocking_rules ∧
    (∀ l1 l2 : List String, l1.Perm l2 →
      sortedDedup (blockingHints l1) = sortedDedup (blockingHints l2)) ∧
    (∀ l : List String, (sortedDedup (blockingHints l)).Nodup) := by
  refine ⟨by decide, by decide, by decide, by decide,
    fun l1 l2 h => ?_, fun l => sortedDedup_nodup _⟩
  exact sortedDedup_perm_congr (h.filterMap _)

/-- C6 witness: permutation invariance applied to two concrete rule
orders. -/
theorem c6_robots_blocking_witness :
    (["/", "/private"] : List String).Perm ["/private", "/"] ∧
    sortedDedup (blockingHints ["/", "/private"]) =
      sortedDedup (blockingHints ["/private", "/"]) :=
  ⟨List.Perm.swap "/private" "/" [],
    c6_robots_blocking.2.2.2.2.1 ["/", "/private"] ["/private", "/"]
      (List.Perm.swap "/private" "/" [])⟩

theorem feedStep_fst_of_some (parse : String → List FeedItem × Option String)
    (fetch : String → Option FeedResp × Option String)
    (b : SelectedFeed) (cs : List FeedCheck) (u : String) :
    (feedStep parse fetch (some b, cs) u).1 = some b := by
  simp only [feedStep]
  cases h : (fetch u).1 with
  | none => simp
  | some resp => by_cases hok : respOk resp <;> simp [hok]

theorem foldl_feedStep_some (parse : String → List FeedItem × Option String)
    (fetch : String → Option FeedResp × Option String) (b : SelectedFeed) :
    ∀ (urls : List String) (acc : Option SelectedFeed × List FeedCheck),
      acc.1 = some b → (List.foldl (feedStep parse fetch) acc urls).1 = some b
  | [], _, h => h
  | u :: t, acc, h => by
    rw [List.foldl_cons]
    apply foldl_feedStep_some parse fetch b t
    rcases acc with ⟨fst, snd⟩
    cases h
    exact feedStep_fst_of_some parse fetch b snd u

theorem foldl_feedStep_none (parse : String → List FeedItem × Option String)
    (fetch : String → Option FeedResp × Option String) :
    ∀ (urls : List String) (cs : List FeedCheck),
      (List.foldl (feedStep parse fetch) (none, cs) urls).1 =
        ((urls.find? (qualifies parse fetch)).map (mkSelected parse fetch))
  | [], _ => rfl
  | u :: t, cs => by
    rw [List.foldl_cons, List.find?_cons]
    cases hq : qualifies parse fetch u with
    | true =>
      have hstep : (feedStep parse fetch (none, cs) u).1 =
          some (mkSelected parse fetch u) := by
        unfold qualifies at hq
        simp only [feedStep, mkSelected]
        cases h : (fetch u).1 with
        | none =>
          rw [h] at hq
          exact absurd hq (by simp)
        | some resp =>
          rw [h] at hq
          simp only [Bool.and_eq_true] at hq
          obtain ⟨⟨hok, hpe⟩, hne⟩ := hq
          simp [hok, hpe, hne]
      simpa using foldl_feedStep_some parse fetch _ t _ hstep
    | false =>
      have hstep : (feedStep parse fetch (none, cs) u).1 = none := by
        unfold qualifies at hq
        simp only [feedStep]
        cases h : (fetch u).1 with
        | none => simp
        | some resp =>
          rw [h] at hq
          by_cases hok : respOk resp
          · simp only [hok, Bool.true_and] at hq
            simp [hok, hq]
          · simp [hok]
      have hpair : feedStep parse fetch (none, cs) u =
          (none, (feedStep parse fetch (none, cs) u).2) := by
        conv_lhs => rw [← Prod.mk.eta (p := feedStep parse fetch (none, cs) u)]
        rw [hstep]
      rw [hpair]
      exact foldl_feedStep_none parse fetch t _

/-- C3: feed selection: the selected feed is exactly the first candidate,
in the locator's sorted order, that fetched with an OK status, parsed
without error, and produced at least one entry; a selected feed never has
zero entries; when no candidate qualifies the selection is null with an
empty entry list; and the locator's candidate list is sorted. -/
theorem c3_first_qualifying_candidate :
    (∀ (parse : String → List FeedItem × Option String)
        (fetch : String → Option FeedResp × Option String) (urls : List String),
      (audit_feed_selection parse fetch urls).1 =
        ((urls.find? (qualifies parse fetch)).map (mkSelected parse fetch))) ∧
    (∀ (parse : String → List FeedItem × Option String)
        (fetch : String → Option FeedResp × Option String) (urls : List String)
        (b : SelectedFeed),
      (audit_feed_selection parse fetch urls).1 = some b → b.items ≠ []) ∧
    (∀ (parse : String → List FeedItem × Option String)
        (fetch : String → Option FeedResp × Option String) (urls : List String),
      urls.find? (qualifies parse fetch) = none →
        (audit_feed_selection parse fetch urls).1 = none ∧
        selectedItems (audit_feed_selection parse fetch urls).1 = []) ∧
    (∀ (seed : String) (alternates : List String),
      (discover_feed_urls seed alternates).Pairwise strLeRel) := by
  have hmain : ∀ (parse : String → List FeedItem × Option String)
      (fetch : String → Option FeedResp × Option String) (urls : List String),
      (audit_feed_selection parse fetch urls).1 =
        ((urls.find? (qualifies parse fetch)).map (mkSelected parse fetch)) :=
    fun p f urls => foldl_feedStep_none p f urls []
  refine ⟨hmain, ?_, ?_, ?_⟩
  · intro p f urls b hb
    rw [hmain] at hb
    cases hfind : urls.find? (qualifies p f) with
    | none =>
      rw [hfind] at hb
      exact absurd hb (by simp)
    | some u =>
      rw [hfind] at hb
      obtain rfl : mkSelected p f u = b := Option.some.inj hb
      have hq := List.find?_some hfind
      unfold qualifies at hq
      unfold mkSelected
      cases h : (f u).1 with
      | none =>
        rw [h] at hq
        exact absurd hq (by simp)
      | some resp =>
        rw [h] at hq
        simp only [Bool.and_eq_true] at hq
        obtain ⟨⟨hok, hpe⟩, hne⟩ := hq
        simp only
        intro hempty
        rw [hempty] at hne
        simp at hne
  · intro p f urls hnone
    have h1 : (audit_feed_selection p f urls).1 = none := by
      rw [hmain, hnone]
      rfl
    refine ⟨h1, ?_⟩
    rw [h1]
    rfl
  · intro seed alts
    exact sortedDedup_sorted (seed :: alts)

/-- C3 witness: in the two-candidate demo the first candidate parses to
zero entries and is skipped; the second is selected and its entry list is
non-empty. -/
theorem c3_first_qualifying_candidate_witness :
    (audit_feed_selection demoParse demoFetch demoUrls).1 =
      some ⟨"https://ex.com/feed/", 200, [exItem true false 900]⟩ ∧
    (⟨"https://ex.com/feed/", 200, [exItem true false 900]⟩ : SelectedFeed).items ≠ [] :=
  ⟨by decide,
    c3_first_qualifying_candidate.2.1 demoParse demoFetch demoUrls _ (by decide)⟩

theorem mem_optIssue {c : Prop} [Decidable c] {i x : Issue}
    (h : x ∈ optIssue c i) : x = i := by
  unfold optIssue at h
  split at h
  · simpa using h
  · simp at h

theorem p0_priority (a : Audit) : ∀ i ∈ p0Issues a, i.priority = "P0" := by
  intro i h
  simp only [p0Issues, List.mem_append] at h
  rcases h with ((h | h) | h) | h <;> rw [mem_optIssue h]

theorem p1_priority (a : Audit) : ∀ i ∈ p1Issues a, i.priority = "P1" := by
  intro i h
  simp only [p1Issues, List.mem_append] at h
  rcases h with ((((h | h) | h) | h) | h) | h <;> rw [mem_optIssue h]

theorem p2_priority (a : Audit) : ∀ i ∈ p2Issues a, i.priority = "P2" := by
  intro i h
  simp only [p2Issues, List.mem_append] at h
  rcases h with (h | h) | h <;> rw [mem_optIssue h]

theorem charsLe_refl : ∀ l : List Char, charsLe l l = true
  | [] => rfl
  | a :: as => by simp [charsLe, charsLe_refl as]

theorem pairwise_const_priority {l : List Issue} {p : String}
    (h : ∀ i ∈ l, i.priority = p) : l.Pairwise issueLe :=
  List.pairwise_of_forall_mem_list (fun x hx y hy => by
    show pyStrLe x.priority y.priority = true
    rw [h x hx, h y hy]
    exact charsLe_refl _)

theorem issueLe_of_priorities {x y : Issue} {p q : String}
    (hx : x.priority = p) (hy : y.priority = q) (hpq : pyStrLe p q = true) :
    issueLe x y := by
  show pyStrLe x.priority y.priority = true
  rw [hx, hy]
  exact hpq

theorem rawIssues_sorted (a : Audit) : (rawIssues a).Pairwise issueLe := by
  unfold rawIssues
  rw [List.pairwise_append, List.pairwise_append]
  refine ⟨⟨pairwise_const_priority (p0_priority a),
    pairwise_const_priority (p1_priority a), ?_⟩,
    pairwise_const_priority (p2_priority a), ?_⟩
  · intro x hx y hy
    exact issueLe_of_priorities (p0_priority a x hx) (p1_priority a y hy) (by decide)
  · intro x hx y hy
    rcases List.mem_append.mp hx with h | h
    · exact issueLe_of_priorities (p0_priority a x h) (p2_priority a y hy) (by decide)
    · exact issueLe_of_priorities (p1_priority a x h) (p2_priority a y hy) (by decide)

theorem derive_issues_eq_raw (a : Audit) : derive_issues a = rawIssues a :=
  List.Sorted.insertionSort_eq (rawIssues_sorted a)

/-- C8: the issue engine is a pure function of the snapshot (identical
snapshots give identical lists), its output is sorted by priority tier
with the top tier first, and the stable sort preserves rule-evaluation
order within each tier (the filtered sub-list per priority equals the
pre-sort rule order). -/
theorem c8_engine_deterministic_and_sorted (a : Audit) :
    derive_issues a = derive_issues a ∧
    (derive_issues a).Pairwise issueLe ∧
    (∀ p : String, (derive_issues a).filter (fun i => i.priority == p) =
      (rawIssues a).filter (fun i => i.priority == p)) := by
  refine ⟨rfl, ?_, ?_⟩
  · rw [derive_issues_eq_raw]
    exact rawIssues_sorted a
  · intro p
    rw [derive_issues_eq_raw]

/-- C1 counterexample: the concrete snapshot satisfies every hypothesis of
the claim (robots unreachable with no robots data, no reachable sitemap,
zero feed entries, zero sampled articles), yet the engine emits exactly
TWO top-tier issues — not three — and ONE second-tier issue (the feed-risk
rule fires because the zero-entry branch set the risk flag) — not zero. -/
theorem c1_counterexample_issue_counts :
    c1Audit.robots.potentially_blocking_rules = [] ∧
    (∀ s ∈ c1Audit.sitemaps, s.reachable = false) ∧
    c1Audit.feed.item_count = 0 ∧
    c1Audit.summary.fetched = 0 ∧
    ((derive_issues c1Audit).filter (fun i => i.priority == "P0")).length = 2 ∧
    ((derive_issues c1Audit).filter (fun i => i.priority == "P1")).length = 1 :=
  ⟨rfl, by decide, rfl, rfl, by decide, by decide⟩

/-- C1 amended: such a snapshot produces exactly TWO top-tier issues (the
unreachable-sitemap issue and the no-feed-items issue; the blocking-robots
issue is not among them), exactly ONE second-tier issue (the feed
ingestion-risk issue, whose flag the zero-entry branch always sets) and
zero third-tier issues. -/
theorem c1_amended_issue_counts (a : Audit)
    (hrob : a.robots.potentially_blocking_rules = [])
    (hsm : ∀ s ∈ a.sitemaps, s.reachable = false)
    (hfeed : a.feed.item_count = 0)
    (hrisk : a.feed.newsbreak_risk = (feedRisk []).1)
    (hfetched : a.summary.fetched = 0) :
    ((derive_issues a).filter (fun i => i.priority == "P0")).map (fun i => i.title) =
      ["No sitemap endpoint was reachable", "No valid RSS feed items found"] ∧
    ((derive_issues a).filter (fun i => i.priority == "P1")).map (fun i => i.title) =
      ["Feed has elevated NewsBreak ingestion risk"] ∧
    (derive_issues a).filter (fun i => i.priority == "P2") = [] ∧
    (∀ i ∈ derive_issues a, i.title ≠ "robots.txt may block news discovery paths") := by
  have hrisk2 : a.feed.newsbreak_risk = true := hrisk.trans rfl
  have hany : (a.sitemaps.any (fun s => s.reachable)) = false :=
    List.any_eq_false.mpr (fun x hx => by simp [hsm x hx])
  have hraw : rawIssues a = [⟨"P0", "No sitemap endpoint was reachable",
      "None of /sitemap.xml, /sitemap_index.xml, /wp-sitemap.xml, /news-sitemap.xml returned 2xx/3xx.",
      "Enable XML sitemaps in your SEO plugin or core WordPress and verify robots.txt exposes a Sitemap line."⟩,
    ⟨"P0", "No valid RSS feed items found",
      "Feed discovery returned no usable entries.",
      "Ensure /feed/ returns valid RSS and is not cached/rewritten to HTML."⟩,
    ⟨"P1", "Feed has elevated NewsBreak ingestion risk",
      (let j := String.intercalate "; " a.feed.newsbreak_risk_reasons
       if j = "" then "Feed appears excerpt-only or image-light." else j),
      "Switch RSS to full text and include featured images in feed items."⟩] := by
    simp [rawIssues, p0Issues, p1Issues, p2Issues, optIssue, hrob, hany, hfeed, hfetched,
      hrisk2]
  rw [derive_issues_eq_raw, hraw]
  refine ⟨?_, ?_, ?_, ?_⟩
  · simp [List.filter]
  · simp [List.filter]
  · simp [List.filter]
  · intro i hi
    simp only [List.mem_cons, List.not_mem_nil, or_false] at hi
    rcases hi with rfl | rfl | rfl <;> simp

/-- C1 witness: the amended statement applied to the concrete snapshot. -/
theorem c1_amended_issue_counts_witness :
    ((derive_issues c1Audit).filter (fun i => i.priority == "P0")).map (fun i => i.title) =
      ["No sitemap endpoint was reachable", "No valid RSS feed items found"] ∧
    ((derive_issues c1Audit).filter (fun i => i.priority == "P1")).map (fun i => i.title) =
      ["Feed has elevated NewsBreak ingestion risk"] :=
  ⟨(c1_amended_issue_counts c1Audit rfl (by decide) rfl rfl rfl).1,
    (c1_amended_issue_counts c1Audit rfl (by decide) rfl rfl rfl).2.1⟩

end WpNewsOps
